import Mathlib

/-!
Shallow embedding of the single-room WebRTC signaling router in
`src/index.js` (both the module-level worker variant and the `RoomDO`
Durable Object variant implement the same routing logic; the embedding
covers both).

Channels are identified by natural numbers.  JavaScript values occurring
in inbound/outbound frames are modelled by `JVal`; a parsed JSON object
is an association list `JObj`.  The JS `Map` of clients is modelled as an
insertion-ordered association list with `Map.get` / `Map.set` /
`Map.delete` semantics.  Each message handler is a pure function from the
channel, its per-connection `meta` record and the current room state to a
trace of `Action`s: best-effort sends (`safeSend`), channel closes, and
registry mutations, emitted in the order the source performs them.
`Math.random()`-based id generation is passed in as an explicit argument
(`newId`) to `handleClientHello`, exactly where the source calls
`generateClientId()`.
-/

namespace Signaler

/-- A channel (WebSocket) identifier. -/
abbrev Channel := Nat

/-- `meta.role` values: `"host"` or `"client"`; `none` models JS `null`. -/
inductive Role where
  | host
  | client
deriving DecidableEq, Repr

/-- The per-connection `meta` record: `{ role, clientId }`. -/
structure Meta where
  role : Option Role
  clientId : Option String
deriving DecidableEq, Repr

/-- JavaScript values appearing in message payloads.  Numbers are modelled
as integers (the only numeric facts used concern `0` and `42`); a list of
strings models the `clients` array of `host-registered`. -/
inductive JVal where
  | null
  | bool (b : Bool)
  | num (n : Int)
  | str (s : String)
  | strList (l : List String)
deriving DecidableEq, Repr

/-- A parsed JSON object: association list from key to value. -/
abbrev JObj := List (String × JVal)

/-- Property lookup on an object (`o[k]`); `none` models `undefined`. -/
def jLookup (o : JObj) (k : String) : Option JVal :=
  o.lookup k

/-- Assign key `k` to value `v`, as the spread-then-overwrite idiom does:
an existing key keeps its position and gets the new value, a fresh key is
appended. -/
def setKey : JObj → String → JVal → JObj
  | [], k, v => [(k, v)]
  | (k', v') :: rest, k, v =>
      if k' = k then (k, v) :: rest else (k', v') :: setKey rest k v

/-- JS truthiness test (restricted to the modelled values). -/
def falsy : JVal → Bool
  | .null => true
  | .bool b => !b
  | .num n => n == 0
  | .str s => s == ""
  | .strList _ => false

/-- The JS `String(·)` coercion on the modelled values. -/
def jsToString : JVal → String
  | .null => "null"
  | .bool b => if b then "true" else "false"
  | .num n => toString n
  | .str s => s
  | .strList l => String.intercalate "," l

/-- The JS `String.prototype.trim()`: strip leading and trailing
whitespace (computable by structural recursion on the character list). -/
def jsTrim (s : String) : String :=
  ⟨((s.data.dropWhile Char.isWhitespace).reverse.dropWhile
      Char.isWhitespace).reverse⟩

/-- `String(msg.clientId || "").trim()` from `handleSignal`'s host branch. -/
def extractClientId (msg : JObj) : String :=
  jsTrim (match jLookup msg "clientId" with
          | none => ""
          | some v => if falsy v then "" else jsToString v)

/-- `{...msg, clientId, from}`: copy the inbound payload, then overwrite
the `clientId` and `from` fields. -/
def forwardMsg (msg : JObj) (cid : String) (frm : String) : JObj :=
  setKey (setKey msg "clientId" (.str cid)) "from" (.str frm)

/-- `{"type":"error","error":code}`. -/
def errMsg (code : String) : JObj :=
  [("type", .str "error"), ("error", .str code)]

/-- `{"type":"host-registered","clients":[...]}`. -/
def hostRegisteredMsg (ids : List String) : JObj :=
  [("type", .str "host-registered"), ("clients", .strList ids)]

/-- `{"type":"client-welcome","clientId":id,"hasHost":b}`. -/
def clientWelcomeMsg (id : String) (hasHost : Bool) : JObj :=
  [("type", .str "client-welcome"), ("clientId", .str id), ("hasHost", .bool hasHost)]

/-- `{"type":"client-connected","clientId":id}`. -/
def clientConnectedMsg (id : String) : JObj :=
  [("type", .str "client-connected"), ("clientId", .str id)]

/-- `{"type":"client-disconnected","clientId":id}`. -/
def clientDisconnectedMsg (id : String) : JObj :=
  [("type", .str "client-disconnected"), ("clientId", .str id)]

/-- `{"type":"host-disconnected"}`. -/
def hostDisconnectedMsg : JObj :=
  [("type", .str "host-disconnected")]

/-- The `clients` JS `Map`, as an insertion-ordered association list. -/
abbrev ClientMap := List (String × Channel)

/-- `clients.get(k)`. -/
def mapGet (m : ClientMap) (k : String) : Option Channel :=
  m.lookup k

/-- `clients.set(k, ch)`: update in place keeping insertion order, or
append a fresh key. -/
def mapSet : ClientMap → String → Channel → ClientMap
  | [], k, ch => [(k, ch)]
  | (k', ch') :: rest, k, ch =>
      if k' = k then (k, ch) :: rest else (k', ch') :: mapSet rest k ch

/-- `clients.delete(k)`. -/
def mapDelete (m : ClientMap) (k : String) : ClientMap :=
  m.filter (fun p => p.1 ≠ k)

/-- `Array.from(clients.keys())`. -/
def mapKeys (m : ClientMap) : List String :=
  m.map (fun p => p.1)

/-- The room registry: `host` slot plus `clients` map (module-level
`host`/`clients` in the worker variant, `this.host`/`this.clients` in
`RoomDO`). -/
structure RoomState where
  host : Option Channel
  clients : ClientMap
deriving DecidableEq, Repr

/-- One observable step performed by a handler, in source order:
best-effort sends (`safeSend`), `ws.close(code, reason)`, and the registry
mutations. -/
inductive Action where
  | send (ch : Channel) (msg : JObj)
  | close (ch : Channel) (code : Nat) (reason : String)
  | setHost (ch : Channel)
  | clearHost
  | setClient (id : String) (ch : Channel)
  | deleteClient (id : String)
deriving DecidableEq, Repr

/-- Effect of one action on the registry.  Sends and closes do not touch
the registry: `safeSend` swallows any error, and a `close` only triggers
the asynchronous close event (handled later by `cleanup`), never a
synchronous registry change. -/
def applyAction (st : RoomState) : Action → RoomState
  | .setHost ch => { st with host := some ch }
  | .clearHost => { st with host := none }
  | .setClient id ch => { st with clients := mapSet st.clients id ch }
  | .deleteClient id => { st with clients := mapDelete st.clients id }
  | .send _ _ => st
  | .close _ _ _ => st

/-- Run a trace of actions over the registry. -/
def applyTrace (st : RoomState) (tr : List Action) : RoomState :=
  tr.foldl applyAction st

/-- Is this action a (best-effort) send? -/
def isSend : Action → Bool
  | .send _ _ => true
  | _ => false

/-- The state-affecting / channel-closing steps of a trace: everything
except the fire-and-forget sends.  A failed `safeSend` changes nothing,
so the registry outcome and the close/mutation steps of a handler are
exactly `effects` of its trace, independent of any send's delivery. -/
def effects (tr : List Action) : List Action :=
  tr.filter (fun a => !(isSend a))

/-- `handleRegisterHost(ws, meta)`: unconditionally reclassify the channel
as host, kick a different existing host, install `ws` in the host slot and
reply `host-registered` with the current client-id list. -/
def handleRegisterHost (ws : Channel) (_meta : Meta) (st : RoomState) :
    Meta × List Action :=
  let meta' : Meta := { role := some .host, clientId := none }
  let kick : List Action :=
    match st.host with
    | some h =>
        if h ≠ ws then
          [.send h (errMsg "host-replaced"), .close h 1011 "host replaced"]
        else []
    | none => []
  (meta', kick ++ [.setHost ws, .send ws (hostRegisteredMsg (mapKeys st.clients))])

/-- `handleClientHello(ws, meta)`; `newId` is the value the source draws
from `generateClientId()`. -/
def handleClientHello (ws : Channel) (meta : Meta) (newId : String)
    (st : RoomState) : Meta × List Action :=
  if meta.role ≠ none ∧ meta.role ≠ some .client then
    (meta, [])
  else
    let meta' : Meta := { role := some .client, clientId := some newId }
    let kick : List Action :=
      match mapGet st.clients newId with
      | some ex =>
          if ex ≠ ws then
            [.send ex (errMsg "client-replaced"), .close ex 1011 "client id replaced"]
          else []
      | none => []
    let notifyHost : List Action :=
      match st.host with
      | some h => [.send h (clientConnectedMsg newId)]
      | none => []
    (meta', kick ++ [.setClient newId ws,
        .send ws (clientWelcomeMsg newId st.host.isSome)] ++ notifyHost)

/-- `handleSignal(ws, meta, msg)` for `offer`/`answer`/`ice-candidate`.
Never mutates `meta` or the registry; returns only sends. -/
def handleSignal (ws : Channel) (meta : Meta) (msg : JObj) (st : RoomState) :
    List Action :=
  match meta.role with
  | none => [.send ws (errMsg "not-registered")]
  | some .client =>
      match st.host with
      | none => [.send ws (errMsg "no-host")]
      | some h =>
          match meta.clientId with
          | none => []
          | some cid =>
              if cid = "" then []
              else [.send h (forwardMsg msg cid "client")]
  | some .host =>
      let cid := extractClientId msg
      if cid = "" then [.send ws (errMsg "missing-clientId")]
      else
        match mapGet st.clients cid with
        | none => [.send ws (errMsg "unknown-client")]
        | some target => [.send target (forwardMsg msg cid "host")]

/-- The `cleanup` closure run on a channel's `close` or `error` event. -/
def cleanup (ws : Channel) (meta : Meta) (st : RoomState) : List Action :=
  match meta.role with
  | some .host =>
      if st.host = some ws then
        .clearHost :: st.clients.map (fun p => .send p.2 hostDisconnectedMsg)
      else []
  | some .client =>
      match meta.clientId with
      | none => []
      | some cid =>
          if cid = "" then []
          else
            match mapGet st.clients cid with
            | some ex =>
                if ex = ws then
                  .deleteClient cid ::
                    (match st.host with
                     | some h => [.send h (clientDisconnectedMsg cid)]
                     | none => [])
                else []
            | none => []
  | none => []

/-! ### Basic lemmas about the object and map operations -/

theorem jLookup_setKey_self (o : JObj) (k : String) (v : JVal) :
    jLookup (setKey o k v) k = some v := by
  induction o with
  | nil => simp [setKey, jLookup, List.lookup]
  | cons p rest ih =>
      obtain ⟨k', v'⟩ := p
      by_cases h : k' = k
      · subst h; simp [setKey, jLookup, List.lookup]
      · have hb : (k == k') = false := beq_eq_false_iff_ne.mpr (Ne.symm h)
        simpa [setKey, jLookup, List.lookup, h, hb] using ih

theorem jLookup_setKey_other (o : JObj) (k k' : String) (v : JVal)
    (h : k' ≠ k) : jLookup (setKey o k v) k' = jLookup o k' := by
  have hb : (k' == k) = false := beq_eq_false_iff_ne.mpr h
  induction o with
  | nil => simp [setKey, jLookup, List.lookup, hb]
  | cons p rest ih =>
      obtain ⟨k₀, v₀⟩ := p
      by_cases hk : k₀ = k
      · subst hk; simp [setKey, jLookup, List.lookup, hb]
      · have hb₀ : (k₀ == k) = false := beq_eq_false_iff_ne.mpr hk
        by_cases hk' : k₀ = k'
        · subst hk'; simp [setKey, jLookup, List.lookup, hk]
        · have hb₁ : (k' == k₀) = false := beq_eq_false_iff_ne.mpr (Ne.symm hk')
          simpa [setKey, jLookup, List.lookup, hk, hb₁] using ih

theorem mapGet_mapSet_self (m : ClientMap) (k : String) (ch : Channel) :
    mapGet (mapSet m k ch) k = some ch := by
  induction m with
  | nil => simp [mapSet, mapGet, List.lookup]
  | cons p rest ih =>
      obtain ⟨k', ch'⟩ := p
      by_cases h : k' = k
      · subst h; simp [mapSet, mapGet, List.lookup]
      · have hb : (k == k') = false := beq_eq_false_iff_ne.mpr (Ne.symm h)
        simpa [mapSet, mapGet, List.lookup, h, hb] using ih

theorem mapGet_mapSet_other (m : ClientMap) (k k' : String) (ch : Channel)
    (h : k' ≠ k) : mapGet (mapSet m k ch) k' = mapGet m k' := by
  have hb : (k' == k) = false := beq_eq_false_iff_ne.mpr h
  induction m with
  | nil => simp [mapSet, mapGet, List.lookup, hb]
  | cons p rest ih =>
      obtain ⟨k₀, ch₀⟩ := p
      by_cases hk : k₀ = k
      · subst hk; simp [mapSet, mapGet, List.lookup, hb]
      · have hb₀ : (k₀ == k) = false := beq_eq_false_iff_ne.mpr hk
        by_cases hk' : k₀ = k'
        · subst hk'; simp [mapSet, mapGet, List.lookup, hk]
        · have hb₁ : (k' == k₀) = false := beq_eq_false_iff_ne.mpr (Ne.symm hk')
          simpa [mapSet, mapGet, List.lookup, hk, hb₁] using ih

theorem applyTrace_append (st : RoomState) (tr₁ tr₂ : List Action) :
    applyTrace st (tr₁ ++ tr₂) = applyTrace (applyTrace st tr₁) tr₂ := by
  simp [applyTrace, List.foldl_append]

theorem applyTrace_all_sends (st : RoomState) (tr : List Action)
    (h : ∀ a ∈ tr, isSend a = true) : applyTrace st tr = st := by
  induction tr with
  | nil => rfl
  | cons a rest ih =>
      have ha := h a (by simp)
      have hrest : ∀ b ∈ rest, isSend b = true := fun b hb => h b (by simp [hb])
      cases a with
      | send ch m => simpa [applyTrace, applyAction] using ih hrest
      | close ch c r => simp [isSend] at ha
      | setHost ch => simp [isSend] at ha
      | clearHost => simp [isSend] at ha
      | setClient i ch => simp [isSend] at ha
      | deleteClient i => simp [isSend] at ha

/-! ### Claims -/

/-- C1 counterexample: the claim "a channel already classified as Client
that sends `register-host` is ignored: the role stays Client and the host
slot is unchanged" is false.  Channel 0 is classified Client with identity
`"a"` and no host is registered; after `handleRegisterHost` its role is
`host` (not `client`) and the host slot now holds channel 0 (it was
empty). -/
theorem c1_counterexample :
    ¬ ((handleRegisterHost 0 ⟨some Role.client, some "a"⟩
          ⟨none, [("a", 0)]⟩).1.role = some Role.client ∧
       (applyTrace ⟨none, [("a", 0)]⟩
          (handleRegisterHost 0 ⟨some Role.client, some "a"⟩
            ⟨none, [("a", 0)]⟩).2).host = none) := by
  decide

/-- C1 (amended): `handleRegisterHost` never consults the channel's
current role.  A channel already classified as Client that sends
`register-host` is reclassified: its role becomes Host, its recorded
identity is cleared, and the host slot is set to that channel (kicking a
different existing host first); the clients map — including the
channel's stale identity entry — is left unchanged. -/
theorem registerHost_reclassifies_client (ws : Channel) (meta : Meta)
    (st : RoomState) (h : meta.role = some Role.client) :
    (handleRegisterHost ws meta st).1 = ⟨some Role.host, none⟩ ∧
    (applyTrace st (handleRegisterHost ws meta st).2).host = some ws ∧
    (applyTrace st (handleRegisterHost ws meta st).2).clients = st.clients := by
  rcases st with ⟨hostSlot, cls⟩
  cases hostSlot with
  | none => simp [handleRegisterHost, applyTrace, applyAction]
  | some old =>
      by_cases hne : old = ws <;>
        simp [handleRegisterHost, applyTrace, applyAction, hne]

/-- Witness for `registerHost_reclassifies_client` at a concrete input. -/
theorem registerHost_reclassifies_client_witness :
    (handleRegisterHost 0 ⟨some Role.client, some "a"⟩
        ⟨none, [("a", 0)]⟩).1 = ⟨some Role.host, none⟩ ∧
    (applyTrace ⟨none, [("a", 0)]⟩
        (handleRegisterHost 0 ⟨some Role.client, some "a"⟩
          ⟨none, [("a", 0)]⟩).2).host = some 0 ∧
    (applyTrace ⟨none, [("a", 0)]⟩
        (handleRegisterHost 0 ⟨some Role.client, some "a"⟩
          ⟨none, [("a", 0)]⟩).2).clients = [("a", 0)] :=
  registerHost_reclassifies_client 0 ⟨some Role.client, some "a"⟩
    ⟨none, [("a", 0)]⟩ rfl

/-- C2 counterexample: the claim "a second `client-hello` on an
already-classified client channel leaves its identity unchanged and
creates no second Registry entry" is false.  Channel 0 is classified
Client with identity `"a"` (registered as such); a second `client-hello`
drawing fresh id `"b"` changes the channel's identity to `"b"` and leaves
the registry with two entries, `"a"` and `"b"`, both mapping to
channel 0. -/
theorem c2_counterexample :
    (handleClientHello 0 ⟨some Role.client, some "a"⟩ "b"
        ⟨none, [("a", 0)]⟩).1.clientId ≠ some "a" ∧
    mapGet (applyTrace ⟨none, [("a", 0)]⟩
        (handleClientHello 0 ⟨some Role.client, some "a"⟩ "b"
          ⟨none, [("a", 0)]⟩).2).clients "b" = some 0 ∧
    mapGet (applyTrace ⟨none, [("a", 0)]⟩
        (handleClientHello 0 ⟨some Role.client, some "a"⟩ "b"
          ⟨none, [("a", 0)]⟩).2).clients "a" = some 0 := by
  decide

/-- C2 (amended): a second `client-hello` on an already-classified client
channel is processed again from scratch: a fresh identity is drawn and
assigned, so when the drawn id differs from the old one the channel's
identity changes to the new id, a new Registry entry for the new id is
installed, and the old entry remains bound to the same channel. -/
theorem clientHello_rebinds_identity (ws : Channel) (meta : Meta)
    (newId oldId : String) (st : RoomState)
    (hrole : meta.role = some Role.client)
    (hold : mapGet st.clients oldId = some ws)
    (hne : newId ≠ oldId)
    (hfresh : mapGet st.clients newId = none) :
    (handleClientHello ws meta newId st).1.clientId = some newId ∧
    mapGet (applyTrace st (handleClientHello ws meta newId st).2).clients
      newId = some ws ∧
    mapGet (applyTrace st (handleClientHello ws meta newId st).2).clients
      oldId = some ws := by
  have hclients :
      (applyTrace st (handleClientHello ws meta newId st).2).clients =
        mapSet st.clients newId ws := by
    rcases st with ⟨hostSlot, cls⟩
    cases hostSlot with
    | none =>
        simp [handleClientHello, hrole, hfresh, applyTrace, applyAction]
    | some h =>
        simp [handleClientHello, hrole, hfresh, applyTrace, applyAction]
  refine ⟨by simp [handleClientHello, hrole], ?_, ?_⟩
  · rw [hclients]; exact mapGet_mapSet_self _ _ _
  · rw [hclients]; rw [mapGet_mapSet_other _ _ _ _ (Ne.symm hne)]; exact hold

/-- Witness for `clientHello_rebinds_identity` at a concrete input. -/
theorem clientHello_rebinds_identity_witness :
    (handleClientHello 0 ⟨some Role.client, some "a"⟩ "b"
        ⟨none, [("a", 0)]⟩).1.clientId = some "b" ∧
    mapGet (applyTrace ⟨none, [("a", 0)]⟩
        (handleClientHello 0 ⟨some Role.client, some "a"⟩ "b"
          ⟨none, [("a", 0)]⟩).2).clients "b" = some 0 ∧
    mapGet (applyTrace ⟨none, [("a", 0)]⟩
        (handleClientHello 0 ⟨some Role.client, some "a"⟩ "b"
          ⟨none, [("a", 0)]⟩).2).clients "a" = some 0 :=
  clientHello_rebinds_identity 0 ⟨some Role.client, some "a"⟩ "b" "a"
    ⟨none, [("a", 0)]⟩ rfl rfl (by decide) rfl

/-- C3: every forwarded signaling message is the inbound payload copied
with `clientId` and `from` overwritten after the copy: the forwarded
object's `clientId` is the router-chosen identity and its `from` is the
router-chosen `"client"`/`"host"` tag — never a sender-supplied value —
while every other key's value is preserved; and `handleSignal` sends
exactly such a message, with `clientId` the sending client's registry
identity (client-to-host) or the resolved target identity
(host-to-client). -/
theorem forwarding_overwrites_clientId_from :
    (∀ (msg : JObj) (cid frm : String),
      jLookup (forwardMsg msg cid frm) "clientId" = some (JVal.str cid) ∧
      jLookup (forwardMsg msg cid frm) "from" = some (JVal.str frm) ∧
      ∀ k, k ≠ "clientId" → k ≠ "from" →
        jLookup (forwardMsg msg cid frm) k = jLookup msg k) ∧
    (∀ (ws h : Channel) (meta : Meta) (msg : JObj) (cid : String)
        (st : RoomState),
      meta.role = some Role.client → meta.clientId = some cid → cid ≠ "" →
      st.host = some h →
      handleSignal ws meta msg st =
        [Action.send h (forwardMsg msg cid "client")]) ∧
    (∀ (ws tgt : Channel) (meta : Meta) (msg : JObj) (st : RoomState),
      meta.role = some Role.host → extractClientId msg ≠ "" →
      mapGet st.clients (extractClientId msg) = some tgt →
      handleSignal ws meta msg st =
        [Action.send tgt (forwardMsg msg (extractClientId msg) "host")]) := by
  refine ⟨?_, ?_, ?_⟩
  · intro msg cid frm
    refine ⟨?_, ?_, ?_⟩
    · rw [forwardMsg, jLookup_setKey_other _ _ _ _ (by decide)]
      exact jLookup_setKey_self _ _ _
    · exact jLookup_setKey_self _ _ _
    · intro k hk₁ hk₂
      rw [forwardMsg, jLookup_setKey_other _ _ _ _ hk₂,
        jLookup_setKey_other _ _ _ _ hk₁]
  · intro ws h meta msg cid st hrole hcid hne hhost
    simp [handleSignal, hrole, hcid, hne, hhost]
  · intro ws tgt meta msg st hrole hne htgt
    simp [handleSignal, hrole, hne, htgt]

/-- Witness for `forwarding_overwrites_clientId_from`: a payload carrying
attacker-supplied `clientId` and `from` fields is forwarded in both
directions with both fields overwritten and the `sdp` field preserved. -/
theorem forwarding_overwrites_clientId_from_witness :
    handleSignal 0 ⟨some Role.client, some "c1"⟩
        [("type", JVal.str "offer"), ("sdp", JVal.str "X"),
         ("clientId", JVal.str "evil"), ("from", JVal.str "evil")]
        ⟨some 1, [("c1", 0)]⟩ =
      [Action.send 1 (forwardMsg
        [("type", JVal.str "offer"), ("sdp", JVal.str "X"),
         ("clientId", JVal.str "evil"), ("from", JVal.str "evil")]
        "c1" "client")] ∧
    handleSignal 1 ⟨some Role.host, none⟩
        [("type", JVal.str "answer"), ("sdp", JVal.str "Y"),
         ("clientId", JVal.str "c1"), ("from", JVal.str "evil")]
        ⟨some 1, [("c1", 0)]⟩ =
      [Action.send 0 (forwardMsg
        [("type", JVal.str "answer"), ("sdp", JVal.str "Y"),
         ("clientId", JVal.str "c1"), ("from", JVal.str "evil")]
        "c1" "host")] ∧
    jLookup (forwardMsg
        [("type", JVal.str "offer"), ("sdp", JVal.str "X"),
         ("clientId", JVal.str "evil"), ("from", JVal.str "evil")]
        "c1" "client") "clientId" = some (JVal.str "c1") ∧
    jLookup (forwardMsg
        [("type", JVal.str "offer"), ("sdp", JVal.str "X"),
         ("clientId", JVal.str "evil"), ("from", JVal.str "evil")]
        "c1" "client") "from" = some (JVal.str "client") ∧
    jLookup (forwardMsg
        [("type", JVal.str "offer"), ("sdp", JVal.str "X"),
         ("clientId", JVal.str "evil"), ("from", JVal.str "evil")]
        "c1" "client") "sdp" = some (JVal.str "X") := by
  refine ⟨?_, ?_, ?_, ?_, ?_⟩
  · exact forwarding_overwrites_clientId_from.2.1 0 1
      ⟨some Role.client, some "c1"⟩ _ "c1" ⟨some 1, [("c1", 0)]⟩
      rfl rfl (by decide) rfl
  · exact forwarding_overwrites_clientId_from.2.2 1 0
      ⟨some Role.host, none⟩
      [("type", JVal.str "answer"), ("sdp", JVal.str "Y"),
       ("clientId", JVal.str "c1"), ("from", JVal.str "evil")]
      ⟨some 1, [("c1", 0)]⟩
      rfl (by decide) (by decide)
  · exact (forwarding_overwrites_clientId_from.1 _ "c1" "client").1
  · exact (forwarding_overwrites_clientId_from.1 _ "c1" "client").2.1
  · exact (forwarding_overwrites_clientId_from.1 _ "c1" "client").2.2
      "sdp" (by decide) (by decide)

/-- C4: when the channel currently recorded as host closes, the trace is
exactly one `clearHost` followed by one `host-disconnected` send per
registered client (each an independent best-effort send); afterwards the
host slot is empty and the clients map unchanged, and any client's
subsequent `offer`/`answer`/`ice-candidate` yields exactly one `no-host`
error. -/
theorem host_close_notifies_all (ws : Channel) (meta : Meta)
    (st : RoomState) (hrole : meta.role = some Role.host)
    (hcur : st.host = some ws) :
    cleanup ws meta st =
      Action.clearHost ::
        st.clients.map (fun p => Action.send p.2 hostDisconnectedMsg) ∧
    (applyTrace st (cleanup ws meta st)).host = none ∧
    (applyTrace st (cleanup ws meta st)).clients = st.clients ∧
    ∀ (cws : Channel) (cmeta : Meta) (msg : JObj),
      cmeta.role = some Role.client →
      handleSignal cws cmeta msg (applyTrace st (cleanup ws meta st)) =
        [Action.send cws (errMsg "no-host")] := by
  have htr : cleanup ws meta st =
      Action.clearHost ::
        st.clients.map (fun p => Action.send p.2 hostDisconnectedMsg) := by
    simp [cleanup, hrole, hcur]
  have hsends : applyTrace { st with host := none }
      (st.clients.map (fun p => Action.send p.2 hostDisconnectedMsg)) =
      { st with host := none } := by
    apply applyTrace_all_sends
    intro a ha
    simp only [List.mem_map] at ha
    obtain ⟨p, _, hp⟩ := ha
    rw [← hp]; rfl
  have hst : applyTrace st (cleanup ws meta st) = { st with host := none } := by
    rw [htr]
    show applyTrace (applyAction st Action.clearHost) _ = _
    simpa [applyAction] using hsends
  refine ⟨htr, by rw [hst], by rw [hst], ?_⟩
  intro cws cmeta msg hcrole
  rw [hst]
  simp [handleSignal, hcrole]

/-- Witness for `host_close_notifies_all`: host channel 9 closes while
clients `"a"` (channel 1) and `"b"` (channel 2) are registered. -/
theorem host_close_notifies_all_witness :
    cleanup 9 ⟨some Role.host, none⟩ ⟨some 9, [("a", 1), ("b", 2)]⟩ =
      [Action.clearHost, Action.send 1 hostDisconnectedMsg,
       Action.send 2 hostDisconnectedMsg] ∧
    (applyTrace ⟨some 9, [("a", 1), ("b", 2)]⟩
        (cleanup 9 ⟨some Role.host, none⟩
          ⟨some 9, [("a", 1), ("b", 2)]⟩)).host = none ∧
    handleSignal 1 ⟨some Role.client, some "a"⟩ [("type", JVal.str "offer")]
        (applyTrace ⟨some 9, [("a", 1), ("b", 2)]⟩
          (cleanup 9 ⟨some Role.host, none⟩
            ⟨some 9, [("a", 1), ("b", 2)]⟩)) =
      [Action.send 1 (errMsg "no-host")] := by
  have h := host_close_notifies_all 9 ⟨some Role.host, none⟩
    ⟨some 9, [("a", 1), ("b", 2)]⟩ rfl rfl
  exact ⟨h.1, h.2.1, h.2.2.2 1 ⟨some Role.client, some "a"⟩
    [("type", JVal.str "offer")] rfl⟩

/-- C5: a closure of a channel that no longer matches the Registry's
current entry for its recorded role or identity is a strict no-op: the
`cleanup` handler emits no action at all — no registry change and no
notification to any peer. -/
theorem stale_close_noop (ws : Channel) (meta : Meta) (st : RoomState) :
    (meta.role = some Role.host → st.host ≠ some ws →
      cleanup ws meta st = []) ∧
    (∀ cid, meta.role = some Role.client → meta.clientId = some cid →
      mapGet st.clients cid ≠ some ws → cleanup ws meta st = []) := by
  constructor
  · intro hrole hne
    simp [cleanup, hrole, hne]
  · intro cid hrole hcid hne
    simp only [cleanup, hrole, hcid]
    by_cases hcid0 : cid = ""
    · simp [hcid0]
    · simp only [hcid0, if_false]
      cases hget : mapGet st.clients cid with
      | none => rfl
      | some ex =>
          have : ex ≠ ws := by
            intro hex; exact hne (by rw [hget, hex])
          simp [this]

/-- Witness for `stale_close_noop`: a superseded host channel 5 (current
host is 7) and a superseded client channel 3 (identity `"a"` now bound to
channel 4) both close without any effect. -/
theorem stale_close_noop_witness :
    cleanup 5 ⟨some Role.host, none⟩ ⟨some 7, [("a", 4)]⟩ = [] ∧
    cleanup 3 ⟨some Role.client, some "a"⟩ ⟨some 7, [("a", 4)]⟩ = [] :=
  ⟨(stale_close_noop 5 ⟨some Role.host, none⟩ ⟨some 7, [("a", 4)]⟩).1
      rfl (by decide),
   (stale_close_noop 3 ⟨some Role.client, some "a"⟩ ⟨some 7, [("a", 4)]⟩).2
      "a" rfl rfl (by decide)⟩

/-- `handleSignal` emits only best-effort sends: it never closes a channel
and never mutates the registry. -/
theorem handleSignal_only_sends (ws : Channel) (meta : Meta) (msg : JObj)
    (st : RoomState) : ∀ a ∈ handleSignal ws meta msg st, isSend a = true := by
  intro a ha
  cases hrole : meta.role with
  | none => simp [handleSignal, hrole] at ha; subst ha; rfl
  | some r =>
      cases r with
      | client =>
          cases hhost : st.host with
          | none => simp [handleSignal, hrole, hhost] at ha; subst ha; rfl
          | some h =>
              cases hcid : meta.clientId with
              | none => simp [handleSignal, hrole, hhost, hcid] at ha
              | some cid =>
                  by_cases hc : cid = ""
                  · simp [handleSignal, hrole, hhost, hcid, hc] at ha
                  · simp [handleSignal, hrole, hhost, hcid, hc] at ha
                    subst ha; rfl
      | host =>
          by_cases hc : extractClientId msg = ""
          · simp [handleSignal, hrole, hc] at ha; subst ha; rfl
          · cases hget : mapGet st.clients (extractClientId msg) with
            | none => simp [handleSignal, hrole, hc, hget] at ha; subst ha; rfl
            | some tgt =>
                simp [handleSignal, hrole, hc, hget] at ha; subst ha; rfl

/-- C6: a Host-classified channel sending `offer`/`answer`/`ice-candidate`
has the payload's `clientId` read, coerced and trimmed; an empty result
yields exactly one `missing-clientId` error and no forward; a result
absent from the clients registry yields exactly one `unknown-client` error
and no forward; otherwise the message is forwarded to that client with
`from` set to `"host"` and no error — and in every case the Registry is
unchanged. -/
theorem host_signal_routing (ws : Channel) (meta : Meta) (msg : JObj)
    (st : RoomState) (hrole : meta.role = some Role.host) :
    (extractClientId msg = "" →
      handleSignal ws meta msg st =
        [Action.send ws (errMsg "missing-clientId")]) ∧
    (extractClientId msg ≠ "" →
      mapGet st.clients (extractClientId msg) = none →
      handleSignal ws meta msg st =
        [Action.send ws (errMsg "unknown-client")]) ∧
    (∀ tgt, extractClientId msg ≠ "" →
      mapGet st.clients (extractClientId msg) = some tgt →
      handleSignal ws meta msg st =
        [Action.send tgt (forwardMsg msg (extractClientId msg) "host")]) ∧
    applyTrace st (handleSignal ws meta msg st) = st := by
  refine ⟨?_, ?_, ?_,
    applyTrace_all_sends _ _ (handleSignal_only_sends ws meta msg st)⟩
  · intro h; simp [handleSignal, hrole, h]
  · intro h hget; simp [handleSignal, hrole, h, hget]
  · intro tgt h hget; simp [handleSignal, hrole, h, hget]

/-- Witness for `host_signal_routing`: host channel 1 with one registered
client `"c1"` (channel 0) hits all three outcomes. -/
theorem host_signal_routing_witness :
    handleSignal 1 ⟨some Role.host, none⟩ [("type", JVal.str "offer")]
        ⟨some 1, [("c1", 0)]⟩ =
      [Action.send 1 (errMsg "missing-clientId")] ∧
    handleSignal 1 ⟨some Role.host, none⟩
        [("type", JVal.str "offer"), ("clientId", JVal.str "zz")]
        ⟨some 1, [("c1", 0)]⟩ =
      [Action.send 1 (errMsg "unknown-client")] ∧
    handleSignal 1 ⟨some Role.host, none⟩
        [("type", JVal.str "offer"), ("clientId", JVal.str "c1")]
        ⟨some 1, [("c1", 0)]⟩ =
      [Action.send 0 (forwardMsg
        [("type", JVal.str "offer"), ("clientId", JVal.str "c1")]
        "c1" "host")] := by
  refine ⟨?_, ?_, ?_⟩
  · exact (host_signal_routing 1 ⟨some Role.host, none⟩
      [("type", JVal.str "offer")] ⟨some 1, [("c1", 0)]⟩ rfl).1 (by decide)
  · exact (host_signal_routing 1 ⟨some Role.host, none⟩
      [("type", JVal.str "offer"), ("clientId", JVal.str "zz")]
      ⟨some 1, [("c1", 0)]⟩ rfl).2.1 (by decide) (by decide)
  · exact (host_signal_routing 1 ⟨some Role.host, none⟩
      [("type", JVal.str "offer"), ("clientId", JVal.str "c1")]
      ⟨some 1, [("c1", 0)]⟩ rfl).2.2.1 0 (by decide) (by decide)

/-- C7: a Client-classified channel sending `offer`/`answer`/
`ice-candidate` while no host is registered receives exactly one
`no-host` error; nothing is forwarded to any other channel and the
Registry is unchanged. -/
theorem client_signal_no_host (ws : Channel) (meta : Meta) (msg : JObj)
    (st : RoomState) (hrole : meta.role = some Role.client)
    (hhost : st.host = none) :
    handleSignal ws meta msg st = [Action.send ws (errMsg "no-host")] ∧
    applyTrace st (handleSignal ws meta msg st) = st := by
  refine ⟨?_,
    applyTrace_all_sends _ _ (handleSignal_only_sends ws meta msg st)⟩
  simp [handleSignal, hrole, hhost]

/-- Witness for `client_signal_no_host` at a concrete input. -/
theorem client_signal_no_host_witness :
    handleSignal 0 ⟨some Role.client, some "c1"⟩ [("type", JVal.str "offer")]
        ⟨none, [("c1", 0)]⟩ =
      [Action.send 0 (errMsg "no-host")] ∧
    applyTrace ⟨none, [("c1", 0)]⟩
        (handleSignal 0 ⟨some Role.client, some "c1"⟩
          [("type", JVal.str "offer")] ⟨none, [("c1", 0)]⟩) =
      ⟨none, [("c1", 0)]⟩ :=
  client_signal_no_host 0 ⟨some Role.client, some "c1"⟩
    [("type", JVal.str "offer")] ⟨none, [("c1", 0)]⟩ rfl rfl

/-- C8: the forced-replacement protocol runs in source order: first the
best-effort `error` send (`host-replaced` / `client-replaced`) to the
prior channel, then a `close(1011, reason)` on it with a human-readable
reason, then the registry overwrite — which removes the prior binding and
installs the new one — and the state-changing steps (`effects`: close then
overwrite) form a fixed subtrace no send can block, since sends are
fire-and-forget (`safeSend` swallows failures and `applyAction` ignores
sends). -/
theorem kick_protocol_order :
    (∀ (ws : Channel) (meta : Meta) (st : RoomState) (old : Channel),
      st.host = some old → old ≠ ws →
      handleRegisterHost ws meta st =
        (⟨some Role.host, none⟩,
         [Action.send old (errMsg "host-replaced"),
          Action.close old 1011 "host replaced",
          Action.setHost ws,
          Action.send ws (hostRegisteredMsg (mapKeys st.clients))]) ∧
      effects (handleRegisterHost ws meta st).2 =
        [Action.close old 1011 "host replaced", Action.setHost ws] ∧
      (applyTrace st (handleRegisterHost ws meta st).2).host = some ws) ∧
    (∀ (ws : Channel) (meta : Meta) (newId : String) (st : RoomState)
        (ex : Channel),
      (meta.role = none ∨ meta.role = some Role.client) →
      mapGet st.clients newId = some ex → ex ≠ ws →
      (handleClientHello ws meta newId st).2 =
        ([Action.send ex (errMsg "client-replaced"),
          Action.close ex 1011 "client id replaced",
          Action.setClient newId ws,
          Action.send ws (clientWelcomeMsg newId st.host.isSome)] ++
         (match st.host with
          | some h => [Action.send h (clientConnectedMsg newId)]
          | none => [])) ∧
      effects (handleClientHello ws meta newId st).2 =
        [Action.close ex 1011 "client id replaced",
         Action.setClient newId ws] ∧
      mapGet (applyTrace st (handleClientHello ws meta newId st).2).clients
        newId = some ws) := by
  constructor
  · intro ws meta st old hhost hne
    refine ⟨by simp [handleRegisterHost, hhost, hne], ?_, ?_⟩
    · simp [handleRegisterHost, hhost, hne, effects, isSend, List.filter]
    · simp [handleRegisterHost, hhost, hne, applyTrace, applyAction]
  · intro ws meta newId st ex hrole hget hne
    rcases st with ⟨hostSlot, cls⟩
    simp only [RoomState.clients] at hget
    rcases hrole with h | h <;> cases hostSlot <;>
      exact ⟨by simp [handleClientHello, h, hget, hne],
        by simp [handleClientHello, h, hget, hne, effects, isSend, List.filter],
        by simp [handleClientHello, h, hget, hne, applyTrace, applyAction,
          mapGet_mapSet_self]⟩

/-- Witness for `kick_protocol_order`: host channel 5 is replaced by
channel 6, and client channel 3 (identity `"a"`) is replaced by channel 4
drawing the colliding id `"a"`. -/
theorem kick_protocol_order_witness :
    handleRegisterHost 6 ⟨none, none⟩ ⟨some 5, [("a", 3)]⟩ =
      (⟨some Role.host, none⟩,
       [Action.send 5 (errMsg "host-replaced"),
        Action.close 5 1011 "host replaced",
        Action.setHost 6,
        Action.send 6 (hostRegisteredMsg ["a"])]) ∧
    (handleClientHello 4 ⟨none, none⟩ "a" ⟨some 5, [("a", 3)]⟩).2 =
      [Action.send 3 (errMsg "client-replaced"),
       Action.close 3 1011 "client id replaced",
       Action.setClient "a" 4,
       Action.send 4 (clientWelcomeMsg "a" true),
       Action.send 5 (clientConnectedMsg "a")] := by
  have h₁ := kick_protocol_order.1 6 ⟨none, none⟩ ⟨some 5, [("a", 3)]⟩ 5
    rfl (by decide)
  have h₂ := kick_protocol_order.2 4 ⟨none, none⟩ "a" ⟨some 5, [("a", 3)]⟩ 3
    (Or.inl rfl) rfl (by decide)
  exact ⟨h₁.1, h₂.1⟩

/-- C9: when the currently registered host sends `register-host` again, it
is not kicked and not closed: the trace holds no error send and no close,
the host slot still holds the same channel, the whole registry state is
unchanged (idempotence), and the channel receives a fresh
`host-registered` message listing the current client identities. -/
theorem registerHost_idempotent (ws : Channel) (meta : Meta)
    (st : RoomState) (hcur : st.host = some ws) :
    handleRegisterHost ws meta st =
      (⟨some Role.host, none⟩,
       [Action.setHost ws,
        Action.send ws (hostRegisteredMsg (mapKeys st.clients))]) ∧
    applyTrace st (handleRegisterHost ws meta st).2 = st := by
  rcases st with ⟨hostSlot, cls⟩
  simp only [RoomState.host] at hcur
  subst hcur
  exact ⟨by simp [handleRegisterHost],
    by simp [handleRegisterHost, applyTrace, applyAction]⟩

/-- Witness for `registerHost_idempotent` at a concrete input. -/
theorem registerHost_idempotent_witness :
    handleRegisterHost 5 ⟨some Role.host, none⟩ ⟨some 5, [("a", 3)]⟩ =
      (⟨some Role.host, none⟩,
       [Action.setHost 5, Action.send 5 (hostRegisteredMsg ["a"])]) ∧
    applyTrace ⟨some 5, [("a", 3)]⟩
        (handleRegisterHost 5 ⟨some Role.host, none⟩
          ⟨some 5, [("a", 3)]⟩).2 =
      ⟨some 5, [("a", 3)]⟩ :=
  registerHost_idempotent 5 ⟨some Role.host, none⟩ ⟨some 5, [("a", 3)]⟩ rfl

/-- C10: for a host signal, the target identity is
`String(msg.clientId || "").trim()`: an absent, `null`, `false`, `0` or
whitespace-only `clientId` yields the `missing-clientId` error, while any
other non-string value such as the number `42` is coerced to its string
form (`"42"`) and used for the registry lookup rather than rejected. -/
theorem host_clientId_coercion (ws : Channel) (meta : Meta)
    (st : RoomState) (hrole : meta.role = some Role.host) :
    (∀ msg : JObj, jLookup msg "clientId" = none →
      handleSignal ws meta msg st =
        [Action.send ws (errMsg "missing-clientId")]) ∧
    (∀ (msg : JObj) (v : JVal), jLookup msg "clientId" = some v →
      falsy v = true →
      handleSignal ws meta msg st =
        [Action.send ws (errMsg "missing-clientId")]) ∧
    (∀ (msg : JObj) (s : String), jLookup msg "clientId" = some (JVal.str s) →
      jsTrim s = "" →
      handleSignal ws meta msg st =
        [Action.send ws (errMsg "missing-clientId")]) ∧
    (∀ (msg : JObj) (tgt : Channel),
      jLookup msg "clientId" = some (JVal.num 42) →
      mapGet st.clients "42" = some tgt →
      handleSignal ws meta msg st =
        [Action.send tgt (forwardMsg msg "42" "host")]) := by
  have hmiss : ∀ msg : JObj, extractClientId msg = "" →
      handleSignal ws meta msg st =
        [Action.send ws (errMsg "missing-clientId")] := by
    intro msg h
    simp [handleSignal, hrole, h]
  refine ⟨?_, ?_, ?_, ?_⟩
  · intro msg hlook
    refine hmiss msg ?_
    unfold extractClientId
    rw [hlook]
    rfl
  · intro msg v hlook hfalsy
    refine hmiss msg ?_
    unfold extractClientId
    rw [hlook]
    simp [hfalsy]
    rfl
  · intro msg s hlook htrim
    refine hmiss msg ?_
    unfold extractClientId
    rw [hlook]
    by_cases hs : s = ""
    · simp [falsy, hs]; rfl
    · have : falsy (JVal.str s) = false := by
        simp [falsy, hs]
      simp [this, jsToString, htrim]
  · intro msg tgt hlook hget
    have hx : extractClientId msg = "42" := by
      unfold extractClientId
      rw [hlook]
      decide
    simp [handleSignal, hrole, hx, hget]

/-- Witness for `host_clientId_coercion`: host channel 1, registry
`{"42" ↦ 3}`; absent, `null`, `false`, `0` and `"  "` all yield
`missing-clientId`, while `42` forwards to channel 3. -/
theorem host_clientId_coercion_witness :
    handleSignal 1 ⟨some Role.host, none⟩ [("type", JVal.str "offer")]
        ⟨some 1, [("42", 3)]⟩ =
      [Action.send 1 (errMsg "missing-clientId")] ∧
    handleSignal 1 ⟨some Role.host, none⟩
        [("type", JVal.str "offer"), ("clientId", JVal.null)]
        ⟨some 1, [("42", 3)]⟩ =
      [Action.send 1 (errMsg "missing-clientId")] ∧
    handleSignal 1 ⟨some Role.host, none⟩
        [("type", JVal.str "offer"), ("clientId", JVal.bool false)]
        ⟨some 1, [("42", 3)]⟩ =
      [Action.send 1 (errMsg "missing-clientId")] ∧
    handleSignal 1 ⟨some Role.host, none⟩
        [("type", JVal.str "offer"), ("clientId", JVal.num 0)]
        ⟨some 1, [("42", 3)]⟩ =
      [Action.send 1 (errMsg "missing-clientId")] ∧
    handleSignal 1 ⟨some Role.host, none⟩
        [("type", JVal.str "offer"), ("clientId", JVal.str "  ")]
        ⟨some 1, [("42", 3)]⟩ =
      [Action.send 1 (errMsg "missing-clientId")] ∧
    handleSignal 1 ⟨some Role.host, none⟩
        [("type", JVal.str "offer"), ("clientId", JVal.num 42)]
        ⟨some 1, [("42", 3)]⟩ =
      [Action.send 3 (forwardMsg
        [("type", JVal.str "offer"), ("clientId", JVal.num 42)]
        "42" "host")] := by
  have h := host_clientId_coercion 1 ⟨some Role.host, none⟩
    ⟨some 1, [("42", 3)]⟩ rfl
  refine ⟨?_, ?_, ?_, ?_, ?_, ?_⟩
  · exact h.1 [("type", JVal.str "offer")] rfl
  · exact h.2.1 [("type", JVal.str "offer"), ("clientId", JVal.null)]
      JVal.null rfl rfl
  · exact h.2.1 [("type", JVal.str "offer"), ("clientId", JVal.bool false)]
      (JVal.bool false) rfl rfl
  · exact h.2.1 [("type", JVal.str "offer"), ("clientId", JVal.num 0)]
      (JVal.num 0) rfl (by decide)
  · exact h.2.2.1 [("type", JVal.str "offer"), ("clientId", JVal.str "  ")]
      "  " rfl (by decide)
  · exact h.2.2.2 [("type", JVal.str "offer"), ("clientId", JVal.num 42)]
      3 rfl rfl

end Signaler
